import Mathlib

/-!
Verification of the edge-connect pallet (src/pallets/edge-connect/src/lib.rs).

The pallet keeps one optional `u32` storage slot `Connection`, exposes four
dispatchable operations (create_connection, send_command, receive_response,
remove_connection), validates unsigned transactions produced by its offchain
worker, and runs a per-block offchain relay cycle.  We embed the storage
state, the dispatch logic, the unsigned-transaction validator and the
offchain worker as executable Lean definitions translated from the source,
and prove the specified properties about them.
-/

namespace EdgeConnect

/-- Account identifiers, abstracting the runtime `T::AccountId`. -/
abbrev AccountId := Nat

/-- The persisted pallet state: the single optional `u32` storage value
`Connection` (lib.rs line 128).  `u32` values are embedded as `Nat`;
the pallet never performs arithmetic on them, so no wrap-around modelling
is needed for the slot itself. -/
structure PalletState where
  connection : Option Nat
deriving Repr, DecidableEq

/-- The empty ledger state: `Connection` slot unoccupied. -/
def initState : PalletState := ⟨none⟩

/-- `<Connection<T>>::exists()` from the source: the slot is occupied. -/
def connection_exists (s : PalletState) : Bool := s.connection.isSome

/-- Events deposited by the pallet (lib.rs lines 133-140). -/
inductive Event where
  | ConnectionCreated (connection : Nat) (who : AccountId)
  | ConnectionRemoved (connection : Nat) (who : AccountId)
deriving Repr, DecidableEq

/-- Dispatch errors of the pallet (lib.rs lines 144-149). -/
inductive Error where
  | ConnectionAlreadyExists
  | ConnectionDoesNotExist
deriving Repr, DecidableEq

/-- Result, post-state and deposited events of one dispatchable call. -/
structure DispatchOutcome where
  result : Except Error Unit
  state : PalletState
  events : List Event
deriving Repr

/-- `create_connection` (lib.rs lines 195-210): requires a signed origin
(the caller `who` is a parameter of the embedding), fails with
`ConnectionAlreadyExists` when the slot is occupied, otherwise stores the
argument and deposits `ConnectionCreated`. -/
def create_connection (s : PalletState) (who : AccountId) (connection : Nat) :
    DispatchOutcome :=
  if connection_exists s then
    ⟨.error .ConnectionAlreadyExists, s, []⟩
  else
    ⟨.ok (), ⟨some connection⟩, [.ConnectionCreated connection who]⟩

/-- `send_command` (lib.rs lines 217-228): requires a signed origin, fails
with `ConnectionDoesNotExist` when the slot is empty, otherwise returns Ok
without touching storage or depositing an event (the forwarding to the
offchain worker is a TODO in the source). -/
def send_command (s : PalletState) (who : AccountId) (command : String) :
    DispatchOutcome :=
  if connection_exists s then
    ⟨.ok (), s, []⟩
  else
    ⟨.error .ConnectionDoesNotExist, s, []⟩

/-- `receive_response` (lib.rs lines 232-242): requires a signed origin,
fails with `ConnectionDoesNotExist` when the slot is empty, otherwise
returns Ok without touching storage or depositing an event (reading from
the offchain worker is a TODO in the source). -/
def receive_response (s : PalletState) (who : AccountId) : DispatchOutcome :=
  if connection_exists s then
    ⟨.ok (), s, []⟩
  else
    ⟨.error .ConnectionDoesNotExist, s, []⟩

/-- `remove_connection` (lib.rs lines 247-262): requires a signed origin,
fails with `ConnectionDoesNotExist` when the slot is empty, otherwise kills
the slot and deposits `ConnectionRemoved` carrying the caller-supplied
argument.  Neither the caller nor the argument is compared with the stored
value. -/
def remove_connection (s : PalletState) (who : AccountId) (connection : Nat) :
    DispatchOutcome :=
  if connection_exists s then
    ⟨.ok (), ⟨none⟩, [.ConnectionRemoved connection who]⟩
  else
    ⟨.error .ConnectionDoesNotExist, s, []⟩

/-- One dispatched operation together with its signed caller. -/
inductive Op where
  | create (who : AccountId) (connection : Nat)
  | send (who : AccountId) (command : String)
  | receive (who : AccountId)
  | remove (who : AccountId) (connection : Nat)
deriving Repr, DecidableEq

/-- Dispatch one operation against a state. -/
def dispatch (s : PalletState) : Op → DispatchOutcome
  | .create who c => create_connection s who c
  | .send who cmd => send_command s who cmd
  | .receive who => receive_response s who
  | .remove who c => remove_connection s who c

/-- Run a sequence of operations from a state, accumulating deposited
events in order. -/
def runFrom (s : PalletState) (evs : List Event) : List Op → PalletState × List Event
  | [] => (s, evs)
  | op :: ops =>
      let o := dispatch s op
      runFrom o.state (evs ++ o.events) ops

/-- Run a sequence of operations from the empty state. -/
def run (ops : List Op) : PalletState × List Event := runFrom initState [] ops

/-- The most recent deposited lifecycle event is a `ConnectionCreated`,
i.e. the most recent successful create has not been followed by a
successful remove. -/
def last_is_created (evs : List Event) : Bool :=
  match evs.getLast? with
  | some (.ConnectionCreated _ _) => true
  | _ => false

theorem last_is_created_concat (evs : List Event) (e : Event) :
    last_is_created (evs ++ [e]) =
      match e with
      | .ConnectionCreated _ _ => true
      | .ConnectionRemoved _ _ => false := by
  cases e <;> simp [last_is_created, List.getLast?_concat]

theorem runFrom_invariant (ops : List Op) :
    ∀ (s : PalletState) (evs : List Event),
      connection_exists s = last_is_created evs →
      connection_exists (runFrom s evs ops).1 = last_is_created (runFrom s evs ops).2 := by
  induction ops with
  | nil => intro s evs h; simpa [runFrom] using h
  | cons op ops ih =>
      intro s evs h
      cases op with
      | create who c =>
          cases hc : s.connection with
          | none =>
              simp only [runFrom, dispatch, create_connection, connection_exists, hc,
                Option.isSome_none, Bool.false_eq_true, if_false]
              exact ih _ _ (by simp [connection_exists, last_is_created_concat])
          | some v =>
              simp only [runFrom, dispatch, create_connection, connection_exists, hc,
                Option.isSome_some, if_true]
              exact ih _ _ (by simpa [connection_exists, hc] using h)
      | send who cmd =>
          cases hc : s.connection with
          | none =>
              simp only [runFrom, dispatch, send_command, connection_exists, hc,
                Option.isSome_none, Bool.false_eq_true, if_false]
              exact ih _ _ (by simpa [connection_exists, hc] using h)
          | some v =>
              simp only [runFrom, dispatch, send_command, connection_exists, hc,
                Option.isSome_some, if_true]
              exact ih _ _ (by simpa [connection_exists, hc] using h)
      | receive who =>
          cases hc : s.connection with
          | none =>
              simp only [runFrom, dispatch, receive_response, connection_exists, hc,
                Option.isSome_none, Bool.false_eq_true, if_false]
              exact ih _ _ (by simpa [connection_exists, hc] using h)
          | some v =>
              simp only [runFrom, dispatch, receive_response, connection_exists, hc,
                Option.isSome_some, if_true]
              exact ih _ _ (by simpa [connection_exists, hc] using h)
      | remove who c =>
          cases hc : s.connection with
          | none =>
              simp only [runFrom, dispatch, remove_connection, connection_exists, hc,
                Option.isSome_none, Bool.false_eq_true, if_false]
              exact ih _ _ (by simpa [connection_exists, hc] using h)
          | some v =>
              simp only [runFrom, dispatch, remove_connection, connection_exists, hc,
                Option.isSome_some, if_true]
              exact ih _ _ (by simp [connection_exists, last_is_created_concat])

/-- C1: for every sequence of dispatched operations starting from the empty
state, the Connection slot is occupied if and only if the most recent
successful create_connection has not been followed by a successful
remove_connection (equivalently, the most recent deposited lifecycle event
is a ConnectionCreated); and any operation that deposits no event leaves
occupancy unchanged. -/
theorem connection_occupancy_iff_last_created :
    (∀ ops : List Op,
      connection_exists (run ops).1 = last_is_created (run ops).2) ∧
    (∀ (s : PalletState) (op : Op), (dispatch s op).events = [] →
      connection_exists (dispatch s op).state = connection_exists s) := by
  constructor
  · intro ops
    exact runFrom_invariant ops initState [] (by simp [initState, connection_exists, last_is_created])
  · intro s op h
    cases op <;>
      simp only [dispatch, create_connection, send_command, receive_response,
        remove_connection] at h ⊢ <;>
      split at h <;> simp_all

/-- Witness for C1: a no-event dispatch (a failing create on an occupied
slot) leaves occupancy unchanged at a concrete state. -/
theorem connection_occupancy_iff_last_created_witness :
    connection_exists (dispatch ⟨some 3⟩ (.create 1 9)).state =
      connection_exists ⟨some 3⟩ :=
  connection_occupancy_iff_last_created.2 ⟨some 3⟩ (.create 1 9) rfl

/-- C2: guard failures are atomic.  create_connection on an occupied slot
returns ConnectionAlreadyExists, and send_command, receive_response and
remove_connection on an empty slot return ConnectionDoesNotExist; in every
such case no event is deposited and the state is unchanged. -/
theorem guard_failures_atomic :
    ∀ (s : PalletState) (who : AccountId) (c : Nat) (cmd : String),
      (connection_exists s = true →
        create_connection s who c = ⟨.error .ConnectionAlreadyExists, s, []⟩) ∧
      (connection_exists s = false →
        send_command s who cmd = ⟨.error .ConnectionDoesNotExist, s, []⟩) ∧
      (connection_exists s = false →
        receive_response s who = ⟨.error .ConnectionDoesNotExist, s, []⟩) ∧
      (connection_exists s = false →
        remove_connection s who c = ⟨.error .ConnectionDoesNotExist, s, []⟩) := by
  intro s who c cmd
  refine ⟨fun h => ?_, fun h => ?_, fun h => ?_, fun h => ?_⟩ <;>
    simp [create_connection, send_command, receive_response, remove_connection, h]

/-- Witness for C2: the four guard failures evaluated at concrete states. -/
theorem guard_failures_atomic_witness :
    create_connection ⟨some 5⟩ 1 2 = ⟨.error .ConnectionAlreadyExists, ⟨some 5⟩, []⟩ ∧
    send_command ⟨none⟩ 1 "go" = ⟨.error .ConnectionDoesNotExist, ⟨none⟩, []⟩ ∧
    receive_response ⟨none⟩ 1 = ⟨.error .ConnectionDoesNotExist, ⟨none⟩, []⟩ ∧
    remove_connection ⟨none⟩ 1 2 = ⟨.error .ConnectionDoesNotExist, ⟨none⟩, []⟩ :=
  ⟨(guard_failures_atomic ⟨some 5⟩ 1 2 "go").1 rfl,
   (guard_failures_atomic ⟨none⟩ 1 2 "go").2.1 rfl,
   (guard_failures_atomic ⟨none⟩ 1 2 "go").2.2.1 rfl,
   (guard_failures_atomic ⟨none⟩ 1 2 "go").2.2.2 rfl⟩

/-- C3: for every signed caller and every id, create_connection on an empty
slot succeeds, stores the id, and deposits exactly one
ConnectionCreated event carrying the id and the caller. -/
theorem create_connection_success :
    ∀ (s : PalletState) (who : AccountId) (id : Nat),
      connection_exists s = false →
      create_connection s who id =
        ⟨.ok (), ⟨some id⟩, [.ConnectionCreated id who]⟩ := by
  intro s who id h
  simp [create_connection, h]

/-- Witness for C3: create_connection at a concrete empty state. -/
theorem create_connection_success_witness :
    create_connection ⟨none⟩ 4 7 = ⟨.ok (), ⟨some 7⟩, [.ConnectionCreated 7 4]⟩ :=
  create_connection_success ⟨none⟩ 4 7 rfl

/-- C4: from the empty state, create_connection(7) then
remove_connection(7) by a signed caller leaves the slot empty and deposits
exactly the two events ConnectionCreated then ConnectionRemoved, in order. -/
theorem create_then_remove_trace :
    ∀ who : AccountId,
      run [.create who 7, .remove who 7] =
        (⟨none⟩, [.ConnectionCreated 7 who, .ConnectionRemoved 7 who]) := by
  intro who
  rfl

/-- C8: send_command and receive_response never mutate persisted state: on
success and on failure alike, the post-state equals the pre-state. -/
theorem send_receive_no_mutation :
    ∀ (s : PalletState) (who : AccountId) (cmd : String),
      (send_command s who cmd).state = s ∧ (receive_response s who).state = s := by
  intro s who cmd
  constructor <;> simp only [send_command, receive_response] <;> split <;> rfl

/-- C9: remove_connection validates neither the caller nor its argument:
for every signed caller and every id, removal on an occupied slot succeeds,
clears the slot, and deposits ConnectionRemoved carrying the
caller-supplied id, not the stored value. -/
theorem remove_connection_unvalidated :
    ∀ (s : PalletState) (who : AccountId) (id : Nat),
      connection_exists s = true →
      remove_connection s who id =
        ⟨.ok (), ⟨none⟩, [.ConnectionRemoved id who]⟩ := by
  intro s who id h
  simp [remove_connection, h]

/-- Witness for C9: a caller distinct from the creator removes with an id
differing from the stored value. -/
theorem remove_connection_unvalidated_witness :
    remove_connection ⟨some 5⟩ 3 9 = ⟨.ok (), ⟨none⟩, [.ConnectionRemoved 9 3]⟩ :=
  remove_connection_unvalidated ⟨some 5⟩ 3 9 rfl

/-- Transaction sources passed to validate_unsigned by the pool. -/
inductive TransactionSource where
  | InBlock
  | Local
  | External
deriving Repr, DecidableEq

/-- Runtime calls as matched by validate_unsigned: the pallet dispatchables
plus the internal unsigned call shape my_unsigned_tx matched at lib.rs
line 119.  Modelled from the spec: the my_unsigned_tx variant is matched in
the validator but declared nowhere under src; its single field key is
embedded as a Nat. -/
inductive Call where
  | create_connection (connection : Nat)
  | send_command (command : String)
  | receive_response
  | remove_connection (connection : Nat)
  | my_unsigned_tx (key : Nat)
deriving Repr, DecidableEq

/-- The admission decision built by the valid_tx closure (lib.rs lines
109-116): a provides tag, a priority, a longevity and a propagate flag.
Each provides tag pairs the constant namespace token given to
with_tag_prefix with the provide payload. -/
structure ValidTransaction where
  priority : Nat
  provides : List (String × String)
  longevity : Nat
  propagate : Bool
deriving Repr, DecidableEq

/-- Modelled from the spec: UNSIGNED_TXS_PRIORITY is referenced at lib.rs
line 111 but defined nowhere under src; the spec requires only that it be a
fixed priority constant, and no theorem below depends on its value. -/
def UNSIGNED_TXS_PRIORITY : Nat := 100

/-- Result of validate_unsigned: accepted with an admission decision, or
rejected with InvalidTransaction (lib.rs line 120). -/
inductive TransactionValidity where
  | valid (v : ValidTransaction)
  | invalidCall
deriving Repr, DecidableEq

/-- The valid_tx closure of validate_unsigned (lib.rs lines 109-116):
namespace token my-pallet, the fixed priority constant, the given provide
payload, longevity 3, propagate true. -/
def valid_tx (provide : String) : ValidTransaction :=
  ⟨UNSIGNED_TXS_PRIORITY, [("my-pallet", provide)], 3, true⟩

/-- validate_unsigned (lib.rs lines 108-122): the one recognized internal
unsigned call shape is accepted via valid_tx with the constant payload
my_unsigned_tx; every other call shape is rejected.  The source value of
the call field is ignored by the match, so the decision depends only on the
call shape. -/
def validate_unsigned (_source : TransactionSource) (call : Call) :
    TransactionValidity :=
  match call with
  | .my_unsigned_tx _ => .valid (valid_tx "my_unsigned_tx")
  | _ => .invalidCall

/-- C5: the recognized internal unsigned call shape is accepted with the
fixed provides tag derived from the constant namespace token (the same tag
whatever the key and the source, so logically identical calls get the same
tag), the fixed priority constant, longevity 3 and propagate true; every
other call shape is rejected with InvalidTransaction. -/
theorem validate_unsigned_admission :
    ∀ (s : TransactionSource) (call : Call),
      (∀ k : Nat, call = .my_unsigned_tx k →
        validate_unsigned s call =
          .valid ⟨UNSIGNED_TXS_PRIORITY, [("my-pallet", "my_unsigned_tx")], 3, true⟩) ∧
      ((∀ k : Nat, call ≠ .my_unsigned_tx k) →
        validate_unsigned s call = .invalidCall) := by
  intro s call
  constructor
  · intro k hk
    subst hk
    rfl
  · intro h
    cases call with
    | my_unsigned_tx k => exact absurd rfl (h k)
    | create_connection c => rfl
    | send_command cmd => rfl
    | receive_response => rfl
    | remove_connection c => rfl

/-- Witness for C5: the recognized shape accepted and another shape
rejected, at concrete calls. -/
theorem validate_unsigned_admission_witness :
    validate_unsigned .Local (.my_unsigned_tx 5) =
      .valid ⟨UNSIGNED_TXS_PRIORITY, [("my-pallet", "my_unsigned_tx")], 3, true⟩ ∧
    validate_unsigned .Local (.create_connection 1) = .invalidCall :=
  ⟨(validate_unsigned_admission .Local (.my_unsigned_tx 5)).1 5 rfl,
   (validate_unsigned_admission .Local (.create_connection 1)).2
     (fun _ h => Call.noConfusion h)⟩

/-- The submission strategies matched by offchain_worker (lib.rs lines
174-182).  The enum itself is declared nowhere under src; its variants are
exactly those the source matches on. -/
inductive TransactionType where
  | Signed
  | UnsignedForAny
  | UnsignedForAll
  | Raw
  | None
deriving Repr, DecidableEq

/-- Modelled from the spec: choose_transaction_type is called at lib.rs
line 173 but defined nowhere under src.  The spec requires a deterministic,
pure function of the current height alone, for example height modulo a
fixed cardinality; we map height modulo 4 over the four submitting
strategies. -/
def choose_transaction_type (block_number : Nat) : TransactionType :=
  match block_number % 4 with
  | 0 => .Signed
  | 1 => .UnsignedForAny
  | 2 => .UnsignedForAll
  | _ => .Raw

/-- One attempted transaction submission: the strategy used and the signer
identity it involves (none for a raw unsigned payload). -/
structure Submission where
  strategy : TransactionType
  signer : Option AccountId
deriving Repr, DecidableEq

/-- Modelled from the spec: fetch_response_and_send_signed is called at
lib.rs line 175 but defined nowhere under src; the Signed strategy submits
one signed transaction per local signer. -/
def fetch_response_and_send_signed (signers : List AccountId) :
    List Submission :=
  signers.map fun a => ⟨.Signed, some a⟩

/-- Modelled from the spec:
fetch_response_and_send_unsigned_for_any_account is called at lib.rs line
177 but defined nowhere under src; the UnsignedForAny strategy embeds one
local signer identity in a single unsigned submission. -/
def fetch_response_and_send_unsigned_for_any_account (_block_number : Nat)
    (signers : List AccountId) : List Submission :=
  match signers.head? with
  | some a => [⟨.UnsignedForAny, some a⟩]
  | none => []

/-- Modelled from the spec:
fetch_response_and_send_unsigned_for_all_accounts is called at lib.rs line
179 but defined nowhere under src; the UnsignedForAll strategy submits one
unsigned transaction per local signer identity. -/
def fetch_response_and_send_unsigned_for_all_accounts (_block_number : Nat)
    (signers : List AccountId) : List Submission :=
  signers.map fun a => ⟨.UnsignedForAll, some a⟩

/-- Modelled from the spec: fetch_response_and_send_raw_unsigned is called
at lib.rs line 180 but defined nowhere under src; the Raw strategy submits
exactly one bespoke unsigned payload keyed by the height, with no signer
identity embedded. -/
def fetch_response_and_send_raw_unsigned (_block_number : Nat) :
    List Submission :=
  [⟨.Raw, none⟩]

/-- Parent block number computed by offchain_worker via the unguarded
subtraction block_number - 1 on the unsigned 32-bit block-number type
(lib.rs line 164), embedded as wrapping arithmetic modulo 2 ^ 32. -/
def parent_number (block_number : Nat) : Nat :=
  (block_number + (2 ^ 32 - 1)) % 2 ^ 32

/-- Outcome of one offchain_worker cycle: an early exit for lack of local
signers, or a completed cycle recording the computed parent number, the
chosen strategy and the attempted submissions. -/
inductive OcwOutcome where
  | noLocalSigners
  | ran (parent : Nat) (strategy : TransactionType) (submissions : List Submission)
deriving Repr, DecidableEq

/-- offchain_worker (lib.rs lines 154-186): enumerate the local signing
identities and return early reporting the lack of local signers when none
can sign; otherwise compute the parent block number by the unguarded
subtraction, choose the strategy from the block number, and dispatch to the
corresponding submitter. -/
def offchain_worker (block_number : Nat) (signers : List AccountId) :
    OcwOutcome :=
  if signers.isEmpty then .noLocalSigners
  else
    let parent := parent_number block_number
    let should_send := choose_transaction_type block_number
    let subs : List Submission :=
      match should_send with
      | .Signed => fetch_response_and_send_signed signers
      | .UnsignedForAny =>
          fetch_response_and_send_unsigned_for_any_account block_number signers
      | .UnsignedForAll =>
          fetch_response_and_send_unsigned_for_all_accounts block_number signers
      | .Raw => fetch_response_and_send_raw_unsigned block_number
      | .None => []
    .ran parent should_send subs

/-- The submissions attempted during a cycle. -/
def submission_attempts : OcwOutcome → List Submission
  | .noLocalSigners => []
  | .ran _ _ subs => subs

/-- Whether the cycle reached the parent-number subtraction. -/
def computes_parent_subtraction : OcwOutcome → Bool
  | .noLocalSigners => false
  | .ran _ _ _ => true

/-- C6: for every block number, when the set of local signing identities is
empty the relay cycle terminates reporting the lack of local signers and
performs no submission attempt of any kind. -/
theorem no_local_signers_no_submission :
    ∀ (block_number : Nat) (signers : List AccountId),
      signers = [] →
      offchain_worker block_number signers = .noLocalSigners ∧
      submission_attempts (offchain_worker block_number signers) = [] := by
  intro block_number signers h
  subst h
  exact ⟨rfl, rfl⟩

/-- Witness for C6: the cycle at block 5 with no local signers. -/
theorem no_local_signers_no_submission_witness :
    offchain_worker 5 [] = .noLocalSigners ∧
    submission_attempts (offchain_worker 5 []) = [] :=
  no_local_signers_no_submission 5 [] rfl

/-- C7: choose_transaction_type is a deterministic, pure function of the
block height alone: any two invocations at the same height yield the same
TransactionType. -/
theorem choose_transaction_type_deterministic :
    ∀ (height : Nat) (t₁ t₂ : TransactionType),
      t₁ = choose_transaction_type height →
      t₂ = choose_transaction_type height →
      t₁ = t₂ := by
  intro height t₁ t₂ h₁ h₂
  rw [h₁, h₂]

/-- Witness for C7: two invocations at height 6 agree. -/
theorem choose_transaction_type_deterministic_witness :
    choose_transaction_type 6 = choose_transaction_type 6 :=
  choose_transaction_type_deterministic 6
    (choose_transaction_type 6) (choose_transaction_type 6) rfl rfl

/-- C10 counterexample: an invocation of offchain_worker at block 0 with no
local signers returns before reaching the parent-hash line, so the
unguarded subtraction is not computed on every invocation. -/
theorem parent_subtraction_skipped_without_signers :
    computes_parent_subtraction (offchain_worker 0 []) = false := rfl

/-- C10 amended: on every invocation that passes the local-signer check,
offchain_worker computes the parent number via the unguarded subtraction
block_number - 1 on the unsigned 32-bit block-number type; that subtraction
agrees with the mathematical predecessor exactly when block_number is at
least 1, and at block_number 0 it underflows, wrapping to 2 ^ 32 - 1. -/
theorem parent_subtraction_underflow :
    ∀ (block_number : Nat) (signers : List AccountId),
      signers ≠ [] →
      (∃ strat subs, offchain_worker block_number signers =
          .ran (parent_number block_number) strat subs) ∧
      (1 ≤ block_number → block_number < 2 ^ 32 →
        parent_number block_number = block_number - 1) ∧
      parent_number 0 = 2 ^ 32 - 1 := by
  intro block_number signers h
  refine ⟨?_, ?_, by rfl⟩
  · refine ⟨choose_transaction_type block_number, ?_, ?_⟩
    · exact
        match choose_transaction_type block_number with
        | .Signed => fetch_response_and_send_signed signers
        | .UnsignedForAny =>
            fetch_response_and_send_unsigned_for_any_account block_number signers
        | .UnsignedForAll =>
            fetch_response_and_send_unsigned_for_all_accounts block_number signers
        | .Raw => fetch_response_and_send_raw_unsigned block_number
        | .None => []
    · have hne : signers.isEmpty = false := by
        cases signers with
        | nil => exact absurd rfl h
        | cons a l => rfl
      simp only [offchain_worker, hne, Bool.false_eq_true, if_false]
  · intro h1 h2
    have hrw : block_number + (2 ^ 32 - 1) = (block_number - 1) + 2 ^ 32 := by
      omega
    rw [parent_number, hrw, Nat.add_mod_right, Nat.mod_eq_of_lt (by omega)]

/-- Witness for C10 amended: at block 0 with one local signer the cycle
runs and the computed parent number is the wrapped value 2 ^ 32 - 1. -/
theorem parent_subtraction_underflow_witness :
    (∃ strat subs, offchain_worker 0 [7] = .ran (parent_number 0) strat subs) ∧
    (1 ≤ 0 → 0 < 2 ^ 32 → parent_number 0 = 0 - 1) ∧
    parent_number 0 = 2 ^ 32 - 1 :=
  parent_subtraction_underflow 0 [7] (by simp)

end EdgeConnect
